import Mathlib

/-!
Verification of the PicoW NeoPixel Home Assistant integration.

The development shallowly embeds the Python source:
* `Json` models Python values produced by `response.json()` plus `None`;
* subscription (`d[k]`), membership (`k in d`) and `dict.get` are modelled
  with explicit Python error outcomes;
* the coordinator (`coordinator.py`) becomes a state-transition function over
  an explicit `Coordinator` record, with the network modelled as an oracle of
  HTTP outcomes;
* the light entity's properties (`light.py`) become total functions that make
  the `try/except` defaults explicit;
* the discovery scan loop (`config_flow.py`, `_discover_devices_http`)
  becomes a recursion over the candidate networks with an oracle giving the
  wall-clock duration of each awaited batch.
-/

namespace PicoW

/-- Python values as returned by `response.json()`, together with `None`
(`null`).  Integers are unbounded, as in Python. -/
inductive Json where
  | null : Json
  | bool : Bool → Json
  | int : Int → Json
  | str : String → Json
  | arr : List Json → Json
  | obj : List (String × Json) → Json

/-- Python exception classes that the embedded code can raise or catch. -/
inductive PyErr where
  | keyError
  | typeError
  | valueError
  | attributeError
  | overflowError
deriving DecidableEq

/-- Python subscription `j[k]` with a string key: dictionaries yield the bound
value or `KeyError`; every non-dict value raises `TypeError`. -/
def pyGetItem (j : Json) (k : String) : Except PyErr Json :=
  match j with
  | Json.obj kvs =>
    match kvs.lookup k with
    | some v => Except.ok v
    | none => Except.error PyErr.keyError
  | _ => Except.error PyErr.typeError

/-- Python equality `j == s` against a string literal: only a string with the
same characters compares equal; values of any other type compare unequal. -/
def pyEqStr (j : Json) (s : String) : Bool :=
  match j with
  | Json.str t => t == s
  | _ => false

/-- Python membership test `k in j` for a string `k`: key lookup on dicts,
element test on lists, substring test on strings, `TypeError` otherwise. -/
def pyContains (j : Json) (k : String) : Except PyErr Bool :=
  match j with
  | Json.obj kvs => Except.ok ((kvs.lookup k).isSome)
  | Json.arr xs => Except.ok (xs.any (pyEqStr · k))
  | Json.str s => Except.ok (decide (k.toList <:+: s.toList))
  | _ => Except.error PyErr.typeError

/-- Python `j.get(k, default)`: defined on dicts only; any other value has no
`get` attribute and raises `AttributeError` (in particular `None.get`). -/
def pyDictGet (j : Json) (k : String) (default : Json) : Except PyErr Json :=
  match j with
  | Json.obj kvs =>
    match kvs.lookup k with
    | some v => Except.ok v
    | none => Except.ok default
  | _ => Except.error PyErr.attributeError

/-! ## Coordinator (`coordinator.py`) -/

/-- Failure of `response.json()`: aiohttp raises `ContentTypeError` (a
`ClientError`) for a wrong content type and `json.JSONDecodeError` (a
`ValueError`) for an unparseable body. -/
inductive ParseErr where
  | contentType
  | decode
deriving DecidableEq

/-- Outcome of one HTTP exchange, as seen by the coordinator's `try` blocks:
the enclosing `asyncio.timeout` fires, the transport raises
`aiohttp.ClientError`, or a response arrives with a status code and a body
that either parses to `Json` or fails to parse. -/
inductive HttpOutcome where
  | timeout
  | clientError
  | response (status : Nat) (body : Except ParseErr Json)

/-- The `UpdateFailed` signal surfaced to the platform layer, tagged by which
`except` branch of the source raised it (`asyncio.TimeoutError`,
`aiohttp.ClientError`, or the catch-all `except Exception`). -/
inductive UpdateErr where
  | timeoutErr
  | clientErr
  | unexpectedErr
deriving DecidableEq

/-- Coordinator state: the `_available` flag and the cached snapshot
(`DataUpdateCoordinator.data`, `Json.null` before the first success). -/
structure Coordinator where
  available : Bool
  data : Json

/-- `__init__` (coordinator.py:25-38): `self._available = True`; the base
class starts with `data = None`. -/
def initCoordinator : Coordinator :=
  { available := true, data := Json.null }

/-- Whether an `Except` result is a success. -/
def isOkB {ε α : Type} : Except ε α → Bool
  | Except.ok _ => true
  | Except.error _ => false

/-- An HTTP exchange fully succeeded: status 200 and a parseable body.  For a
poll fetch anything else raises out of `_get_state`/`_get_info`; for a
command anything else raises out of the `try` block. -/
def fetchOk : HttpOutcome → Bool
  | HttpOutcome.timeout => false
  | HttpOutcome.clientError => false
  | HttpOutcome.response s body => s == 200 && isOkB body

/-- `_async_update_data` (coordinator.py:45-67): fetch `/state` then `/info`;
return the merged dict, or the `UpdateFailed` produced by the matching
`except` branch.  A non-200 status makes `_get_state`/`_get_info` raise
`UpdateFailed`, which the catch-all branch rewraps (`unexpectedErr`); a
decode failure is a `ValueError`, also caught by the catch-all; a
content-type failure is a `ClientError`. -/
def async_update_data (so io : HttpOutcome) : Except UpdateErr Json :=
  match so with
  | HttpOutcome.timeout => Except.error UpdateErr.timeoutErr
  | HttpOutcome.clientError => Except.error UpdateErr.clientErr
  | HttpOutcome.response s body =>
    if s = 200 then
      match body with
      | Except.error ParseErr.contentType => Except.error UpdateErr.clientErr
      | Except.error ParseErr.decode => Except.error UpdateErr.unexpectedErr
      | Except.ok stateJson =>
        match io with
        | HttpOutcome.timeout => Except.error UpdateErr.timeoutErr
        | HttpOutcome.clientError => Except.error UpdateErr.clientErr
        | HttpOutcome.response s2 body2 =>
          if s2 = 200 then
            match body2 with
            | Except.error ParseErr.contentType => Except.error UpdateErr.clientErr
            | Except.error ParseErr.decode => Except.error UpdateErr.unexpectedErr
            | Except.ok infoJson =>
              Except.ok (Json.obj [("state", stateJson), ("info", infoJson)])
          else Except.error UpdateErr.unexpectedErr
    else Except.error UpdateErr.unexpectedErr

/-- One poll cycle.  The availability flag is written inside
`_async_update_data` itself (`True` on the success path, `False` in every
`except` branch).  Modelled from the spec: the host framework's
periodic-scheduling facility (spec section 6) commits the returned dict to
`coordinator.data` on success and leaves `data` untouched when
`UpdateFailed` is raised. -/
def pollCycle (c : Coordinator) (so io : HttpOutcome) :
    Coordinator × Except UpdateErr Json :=
  match async_update_data so io with
  | Except.ok merged => ({ available := true, data := merged }, Except.ok merged)
  | Except.error e => ({ c with available := false }, Except.error e)

/-- `async_send_command` (coordinator.py:93-131): POST the command; on a 200
response with a parseable body, if `"state" in result` then replace the cache
with the response's state block merged with the previously cached info block
(`self.data.get` with an empty-dict default),
and return the parsed body.  Every failure (timeout, transport error, bad
status, parse failure, or an exception evaluating the merge — e.g.
`self.data` is `None`) raises `UpdateFailed` and leaves the state unchanged.
The `_available` flag is never written on this path. -/
def async_send_command (c : Coordinator) (out : HttpOutcome) :
    Coordinator × Except UpdateErr Json :=
  match out with
  | HttpOutcome.timeout => (c, Except.error UpdateErr.timeoutErr)
  | HttpOutcome.clientError => (c, Except.error UpdateErr.clientErr)
  | HttpOutcome.response status body =>
    if status = 200 then
      match body with
      | Except.error ParseErr.contentType => (c, Except.error UpdateErr.clientErr)
      | Except.error ParseErr.decode => (c, Except.error UpdateErr.unexpectedErr)
      | Except.ok result =>
        match pyContains result "state" with
        | Except.error _ => (c, Except.error UpdateErr.unexpectedErr)
        | Except.ok false => (c, Except.ok result)
        | Except.ok true =>
          match pyGetItem result "state" with
          | Except.error _ => (c, Except.error UpdateErr.unexpectedErr)
          | Except.ok stBlock =>
            match pyDictGet c.data "info" (Json.obj []) with
            | Except.error _ => (c, Except.error UpdateErr.unexpectedErr)
            | Except.ok infoBlock =>
              ({ c with data := Json.obj [("state", stBlock), ("info", infoBlock)] },
               Except.ok result)
    else (c, Except.error UpdateErr.unexpectedErr)

/-- A communication operation performed by one coordinator: a scheduled poll
cycle (with the oracle outcomes of its two fetches) or a command dispatch. -/
inductive Op where
  | poll (so io : HttpOutcome)
  | command (out : HttpOutcome)

/-- Execute one operation. -/
def step (c : Coordinator) : Op → Coordinator × Except UpdateErr Json
  | Op.poll so io => pollCycle c so io
  | Op.command out => async_send_command c out

/-- Run a sequence of operations, discarding the reported results. -/
def runOps (c : Coordinator) : List Op → Coordinator
  | [] => c
  | op :: rest => runOps (step c op).1 rest

/-- Whether the most recent operation of the sequence succeeded (did not
report `UpdateFailed`); `true` for the empty sequence, matching the initial
flag. -/
def lastAttemptOk (c : Coordinator) : List Op → Bool
  | [] => true
  | [op] => isOkB (step c op).2
  | op :: rest => lastAttemptOk (step c op).1 rest

/-- The fetch outcomes of the last poll in the sequence, if any. -/
def lastPollOutcome : List Op → Option (HttpOutcome × HttpOutcome)
  | [] => none
  | Op.poll so io :: rest => some ((lastPollOutcome rest).getD (so, io))
  | Op.command _ :: rest => lastPollOutcome rest

/-! ## Light entity (`light.py`) -/

/-- `EFFECT_STATIC` (const.py:27). -/
def EFFECT_STATIC : String := "static"

/-- CPython's pipeline for `int((p / den) * num)` on an unbounded integer
`p`: `p / den` converts to a float (raising `OverflowError` when the
quotient exceeds the largest float), the product with `num` can round to
float infinity, and `int()` of an infinity raises `OverflowError`; none of
these is caught by `except (KeyError, TypeError, ValueError)`.  The model
raises once the magnitude of the ideal result `p * num / den` reaches the
float binade bound `2 ^ 1024` (the true cutoff sits within a relative
`2 ^ (-53)` band of this point, from double rounding; no claim is evaluated
inside that band).  Below the cutoff Python `int()` truncates toward zero,
which `Int.tdiv` is; for the magnitudes the claims exercise the float
arithmetic is exact up to that truncation. -/
def pyScaleTrunc (p num den : Int) : Except PyErr Int :=
  if den.natAbs * 2 ^ 1024 ≤ num.natAbs * p.natAbs then
    Except.error PyErr.overflowError
  else Except.ok (Int.tdiv (p * num) den)

/-- A Python value usable as a division operand: `int` and `bool` (a `bool`
is an `int` in Python); everything else raises `TypeError`. -/
def pyToNumber (j : Json) : Except PyErr Int :=
  match j with
  | Json.int n => Except.ok n
  | Json.bool b => Except.ok (if b then 1 else 0)
  | _ => Except.error PyErr.typeError

/-- Replay an exception-raising computation, converting the listed caught
exception classes to the given default, as an `except (..)` clause does;
any other exception propagates. -/
def pyCatch {α : Type} (kinds : List PyErr) (default : α) :
    Except PyErr α → Except PyErr α
  | Except.ok v => Except.ok v
  | Except.error e =>
    if kinds.contains e then Except.ok default else Except.error e

/-- Body of the `try` block of `is_on` (light.py:83-84):
`self.coordinator.data["state"]["is_on"]`. -/
def is_on_try (data : Json) : Except PyErr Json := do
  let s ← pyGetItem data "state"
  pyGetItem s "is_on"

/-- `is_on` (light.py:81-86): the `try` body with
`except (KeyError, TypeError)` returning `False`. -/
def is_on (data : Json) : Except PyErr Json :=
  pyCatch [PyErr.keyError, PyErr.typeError] (Json.bool false) (is_on_try data)

/-- Body of the `try` block of `brightness` (light.py:92-94): read the 0-100
value and return `int((value / 100) * 255)`, whose float pipeline can raise
an uncaught `OverflowError` for huge cached integers. -/
def brightness_try (data : Json) : Except PyErr Json := do
  let s ← pyGetItem data "state"
  let v ← pyGetItem s "brightness"
  let p ← pyToNumber v
  let r ← pyScaleTrunc p 255 100
  pure (Json.int r)

/-- `brightness` (light.py:88-96): the `try` body with
`except (KeyError, TypeError, ValueError)` returning `255`. -/
def brightness (data : Json) : Except PyErr Json :=
  pyCatch [PyErr.keyError, PyErr.typeError, PyErr.valueError] (Json.int 255)
    (brightness_try data)

/-- Body of the `try` block of `rgb_color` (light.py:101-103). -/
def rgb_color_try (data : Json) : Except PyErr (Json × Json × Json) := do
  let s ← pyGetItem data "state"
  let color ← pyGetItem s "color"
  let r ← pyGetItem color "r"
  let g ← pyGetItem color "g"
  let b ← pyGetItem color "b"
  pure (r, g, b)

/-- `rgb_color` (light.py:98-105): the `try` body with
`except (KeyError, TypeError)` returning `(255, 255, 255)`. -/
def rgb_color (data : Json) : Except PyErr (Json × Json × Json) :=
  pyCatch [PyErr.keyError, PyErr.typeError]
    (Json.int 255, Json.int 255, Json.int 255) (rgb_color_try data)

/-- Body of the `try` block of `effect` (light.py:110-112): read the value
and return it unless it equals `EFFECT_STATIC`, in which case return `None`. -/
def effect_try (data : Json) : Except PyErr Json := do
  let s ← pyGetItem data "state"
  let e ← pyGetItem s "effect"
  pure (if pyEqStr e EFFECT_STATIC then Json.null else e)

/-- `effect` (light.py:107-114): the `try` body with
`except (KeyError, TypeError)` returning `None`. -/
def effect (data : Json) : Except PyErr Json :=
  pyCatch [PyErr.keyError, PyErr.typeError] Json.null (effect_try data)

/-- Device-bound brightness conversion used by `async_turn_on`
(light.py:124): `int((brightness / 255) * 100)` on the 0-255 input. -/
def outgoing_brightness_percent (b : Nat) : Nat := b * 100 / 255

/-- Consumer-bound brightness conversion used by the `brightness` property
(light.py:94): `int((value / 100) * 255)` on the 0-100 device value. -/
def displayed_brightness (p : Nat) : Nat := p * 255 / 100

/-- `async_turn_on` (light.py:116-141): build the `/control` command body.
`power` is always `"on"`; an explicit brightness is converted to the 0-100
scale and floored at 1 (`max(1, brightness_percent)`); an explicit color adds
an `r`/`g`/`b` dict; an explicit effect also sets `speed` to 50. -/
def async_turn_on_command (bri : Option Nat) (rgb : Option (Json × Json × Json))
    (eff : Option Json) : List (String × Json) :=
  [("power", Json.str "on")]
  ++ (match bri with
      | some b => [("brightness", Json.int (max 1 (outgoing_brightness_percent b)))]
      | none => [])
  ++ (match rgb with
      | some (r, g, b) => [("color", Json.obj [("r", r), ("g", g), ("b", b)])]
      | none => [])
  ++ (match eff with
      | some e => [("effect", e), ("speed", Json.int 50)]
      | none => [])

/-! ## Discovery scan (`config_flow.py`, `_discover_devices_http`)

Time is modelled by the event-loop clock: it advances only at the `await`
points (the batch `gather` and the final `wait_for`), by an amount supplied
by an oracle list of durations — one entry consumed per await.  Probe
coroutines are created eagerly but run only when their batch is awaited, so
a "batch start" is the corresponding `await`. -/

/-- `DISCOVERY_TIMEOUT` (config_flow.py:85). -/
def DISCOVERY_TIMEOUT : Nat := 60

/-- `MAX_PARALLEL_SCANS` (config_flow.py:84). -/
def MAX_PARALLEL_SCANS : Nat := 30

/-- Scan-loop state: elapsed event-loop time since `start_time`, the number
of accumulated (not yet awaited) probe coroutines, the duration oracle, the
elapsed time recorded at the start of each awaited intermediate batch, and
the final `wait_for` (elapsed at its start, timeout passed), if reached. -/
structure ScanState where
  elapsed : Nat
  tasks : Nat
  durs : List Nat
  starts : List Nat
  finalWait : Option (Nat × Nat)

/-- Lines 202-204: append a probe coroutine for the address unless it is one
of the scanner's own local addresses. -/
def appendProbe (localIps : List String) (ip : String) (st : ScanState) : ScanState :=
  if localIps.contains ip then st else { st with tasks := st.tasks + 1 }

/-- Inner loop over the host addresses of one network (config_flow.py:200-225):
append a probe for every non-local address; once `MAX_PARALLEL_SCANS` probes
have accumulated, re-check the elapsed time — past the deadline, `break` out
of the address loop (keeping the unawaited probes); otherwise `gather` the
batch (advancing the clock by the next oracle duration) and continue with an
empty batch. -/
def scanIps (localIps : List String) : List String → ScanState → ScanState
  | [], st => st
  | ip :: rest, st =>
    let st' := appendProbe localIps ip st
    if MAX_PARALLEL_SCANS ≤ st'.tasks then
      if DISCOVERY_TIMEOUT < st'.elapsed then
        st'
      else
        scanIps localIps rest
          { st' with
            elapsed := st'.elapsed + st'.durs.headD 0
            tasks := 0
            durs := st'.durs.tail
            starts := st'.starts ++ [st'.elapsed] }
    else
      scanIps localIps rest st'

/-- Outer loop over the candidate networks (config_flow.py:192-197): before
each network, stop issuing anything once the elapsed time exceeds
`DISCOVERY_TIMEOUT`; otherwise sweep the network's addresses. -/
def scanNetworks (localIps : List String) : List (List String) → ScanState → ScanState
  | [], st => st
  | net :: rest, st =>
    if DISCOVERY_TIMEOUT < st.elapsed then st
    else scanNetworks localIps rest (scanIps localIps net st)

/-- Remaining-task block (config_flow.py:227-248): if probes are left over,
compute `remaining_time = DISCOVERY_TIMEOUT - elapsed` and, only when it is
positive, await the final batch under `asyncio.wait_for` with exactly that
timeout (so the clock advances by at most `remaining_time`). -/
def finishScan (st : ScanState) : ScanState :=
  if 0 < st.tasks then
    let remaining := DISCOVERY_TIMEOUT - st.elapsed
    if 0 < remaining then
      { st with
        elapsed := st.elapsed + min (st.durs.headD 0) remaining
        tasks := 0
        durs := st.durs.tail
        finalWait := some (st.elapsed, remaining) }
    else st
  else st

/-- `_discover_devices_http` (config_flow.py:117-257), reduced to its batch
scheduling: sweep every candidate network from a zero clock, then handle the
left-over batch. -/
def discoverDevicesHttp (localIps : List String) (networks : List (List String))
    (durs : List Nat) : ScanState :=
  finishScan (scanNetworks localIps networks
    { elapsed := 0, tasks := 0, durs := durs, starts := [], finalWait := none })

/-! ## Auxiliary definitions for the verification -/

/-- A computation's only possible exceptions are `KeyError` and `TypeError`
(the classes caught by the light's property getters). -/
def ErrCaught {α : Type} (r : Except PyErr α) : Prop :=
  ∀ e, r = Except.error e → e = PyErr.keyError ∨ e = PyErr.typeError

/-- The cached brightness value — when the two lookups and the numeric
conversion succeed at all — is small enough that the float pipeline of the
`brightness` property stays below the overflow cutoff. -/
def BrightnessInRange (data : Json) : Prop :=
  ∀ s v p, pyGetItem data "state" = Except.ok s →
    pyGetItem s "brightness" = Except.ok v →
    pyToNumber v = Except.ok p →
    255 * p.natAbs < 100 * 2 ^ 1024

/-- A successful poll (200 on both endpoints) followed by a command dispatch
that times out: the input exhibiting that the availability flag ignores
command outcomes. -/
def cexC1Ops : List Op :=
  [Op.poll
     (HttpOutcome.response 200 (Except.ok (Json.obj [("is_on", Json.bool true)])))
     (HttpOutcome.response 200 (Except.ok (Json.obj [("device", Json.obj [])]))),
   Op.command HttpOutcome.timeout]

/-! ## Helper lemmas -/

theorem isOkB_async_update_data (so io : HttpOutcome) :
    isOkB (async_update_data so io) = (fetchOk so && fetchOk io) := by
  cases so with
  | timeout => rfl
  | clientError => rfl
  | response s body =>
    by_cases hs : s = 200
    · subst hs
      cases body with
      | error pe => cases pe <;> rfl
      | ok stateJson =>
        cases io with
        | timeout => rfl
        | clientError => rfl
        | response s2 body2 =>
          by_cases hs2 : s2 = 200
          · subst hs2
            cases body2 with
            | error pe2 => cases pe2 <;> simp [async_update_data, fetchOk, isOkB]
            | ok infoJson => simp [async_update_data, fetchOk, isOkB]
          · simp [async_update_data, fetchOk, isOkB, hs2]
    · simp [async_update_data, fetchOk, isOkB, hs]

theorem async_update_data_error (so io : HttpOutcome)
    (h : fetchOk so = false ∨ fetchOk io = false) :
    ∃ e, async_update_data so io = Except.error e := by
  have hok : isOkB (async_update_data so io) = false := by
    rw [isOkB_async_update_data]
    rcases h with h | h <;> simp [h]
  cases hu : async_update_data so io with
  | ok v => rw [hu] at hok; exact absurd hok (by simp [isOkB])
  | error e => exact ⟨e, rfl⟩

theorem async_send_command_available (c : Coordinator) (out : HttpOutcome) :
    (async_send_command c out).1.available = c.available := by
  cases out with
  | timeout => rfl
  | clientError => rfl
  | response s body =>
    unfold async_send_command
    by_cases hs : s = 200
    · simp only [hs, if_pos rfl]
      cases body with
      | error pe => cases pe <;> rfl
      | ok result =>
        cases hc : pyContains result "state" with
        | error e => simp [hc]
        | ok b =>
          cases b with
          | false => simp [hc]
          | true =>
            cases hg : pyGetItem result "state" with
            | error e => simp [hc, hg]
            | ok stBlock =>
              cases hd : pyDictGet c.data "info" (Json.obj []) with
              | error e => simp [hc, hg, hd]
              | ok infoBlock => simp [hc, hg, hd]
    · simp [hs]

theorem pollCycle_available (c : Coordinator) (so io : HttpOutcome) :
    (pollCycle c so io).1.available = (fetchOk so && fetchOk io) := by
  rw [← isOkB_async_update_data]
  unfold pollCycle
  cases async_update_data so io with
  | ok v => rfl
  | error e => rfl

/-! ## Claim theorems -/

/-- C4: a poll cycle in which either the state fetch or the info fetch fails
(timeout, transport error, non-200 status, or unparseable body) reports a
recoverable `UpdateFailed`, drops the availability flag to `false`, and
leaves the previously cached snapshot unchanged (still `null` if there was
no prior success). -/
theorem poll_failure_recoverable (c : Coordinator) (so io : HttpOutcome)
    (h : fetchOk so = false ∨ fetchOk io = false) :
    isOkB (pollCycle c so io).2 = false ∧
    (pollCycle c so io).1.available = false ∧
    (pollCycle c so io).1.data = c.data := by
  obtain ⟨e, he⟩ := async_update_data_error so io h
  refine ⟨?_, ?_, ?_⟩ <;> simp [pollCycle, he, isOkB]

/-- Witness for `poll_failure_recoverable`: a fresh coordinator whose
`/state` fetch times out. -/
theorem poll_failure_recoverable_witness :
    isOkB (pollCycle initCoordinator HttpOutcome.timeout HttpOutcome.timeout).2 = false ∧
    (pollCycle initCoordinator HttpOutcome.timeout HttpOutcome.timeout).1.available = false ∧
    (pollCycle initCoordinator HttpOutcome.timeout HttpOutcome.timeout).1.data =
      initCoordinator.data :=
  poll_failure_recoverable initCoordinator HttpOutcome.timeout HttpOutcome.timeout
    (Or.inl rfl)

/-- C5: a command dispatch that fails (non-200 status, timeout, transport
error, or malformed response body) reports a recoverable `UpdateFailed` to
its caller and leaves the coordinator state — in particular the cached
snapshot — untouched. -/
theorem command_failure_preserves_cache (c : Coordinator) (out : HttpOutcome)
    (h : fetchOk out = false) :
    (async_send_command c out).1 = c ∧
    isOkB (async_send_command c out).2 = false := by
  cases out with
  | timeout => exact ⟨rfl, rfl⟩
  | clientError => exact ⟨rfl, rfl⟩
  | response s body =>
    unfold async_send_command
    by_cases hs : s = 200
    · subst hs
      cases body with
      | error pe => cases pe <;> exact ⟨rfl, rfl⟩
      | ok result => simp [fetchOk, isOkB] at h
    · simp [hs, isOkB]

/-- Witness for `command_failure_preserves_cache`: HTTP 500 on the control
endpoint. -/
theorem command_failure_preserves_cache_witness :
    (async_send_command initCoordinator
       (HttpOutcome.response 500 (Except.ok (Json.obj []))) ).1 = initCoordinator ∧
    isOkB (async_send_command initCoordinator
       (HttpOutcome.response 500 (Except.ok (Json.obj []))) ).2 = false :=
  command_failure_preserves_cache initCoordinator
    (HttpOutcome.response 500 (Except.ok (Json.obj []))) rfl

/-- C6: a command dispatch answered with HTTP 200 and a body containing a
`state` field replaces the cached snapshot by exactly the response's state
block paired with the previously cached info block, and returns the parsed
body. -/
theorem command_success_updates_state_only (c : Coordinator)
    (kvs d : List (String × Json)) (stBlock infoBlock : Json)
    (h1 : kvs.lookup "state" = some stBlock)
    (h2 : c.data = Json.obj d)
    (h3 : d.lookup "info" = some infoBlock) :
    async_send_command c (HttpOutcome.response 200 (Except.ok (Json.obj kvs))) =
      ({ c with data := Json.obj [("state", stBlock), ("info", infoBlock)] },
       Except.ok (Json.obj kvs)) := by
  unfold async_send_command
  simp [pyContains, pyGetItem, pyDictGet, h1, h2, h3]

/-- Witness for `command_success_updates_state_only`: a coordinator holding a
previous snapshot receives 200 with a new state block; the info block
survives verbatim. -/
theorem command_success_updates_state_only_witness :
    async_send_command
      { available := true,
        data := Json.obj [("state", Json.obj [("is_on", Json.bool false)]),
                          ("info", Json.obj [("device", Json.str "pico")])] }
      (HttpOutcome.response 200 (Except.ok
        (Json.obj [("state", Json.obj [("is_on", Json.bool true)])]))) =
      ({ available := true,
         data := Json.obj [("state", Json.obj [("is_on", Json.bool true)]),
                           ("info", Json.obj [("device", Json.str "pico")])] },
       Except.ok (Json.obj [("state", Json.obj [("is_on", Json.bool true)])])) :=
  command_success_updates_state_only
    { available := true,
      data := Json.obj [("state", Json.obj [("is_on", Json.bool false)]),
                        ("info", Json.obj [("device", Json.str "pico")])] }
    [("state", Json.obj [("is_on", Json.bool true)])]
    [("state", Json.obj [("is_on", Json.bool false)]),
     ("info", Json.obj [("device", Json.str "pico")])]
    (Json.obj [("is_on", Json.bool true)])
    (Json.obj [("device", Json.str "pico")])
    rfl rfl rfl

/-- C9: a command dispatch answered with HTTP 200 whose JSON body is a dict
with no `state` field leaves the coordinator completely unchanged and still
returns the parsed body without error. -/
theorem command_no_state_leaves_cache (c : Coordinator)
    (kvs : List (String × Json)) (h : kvs.lookup "state" = none) :
    async_send_command c (HttpOutcome.response 200 (Except.ok (Json.obj kvs))) =
      (c, Except.ok (Json.obj kvs)) := by
  unfold async_send_command
  simp [pyContains, h]

/-- Witness for `command_no_state_leaves_cache`: a 200 acknowledgement body
with only a `status` field. -/
theorem command_no_state_leaves_cache_witness :
    async_send_command initCoordinator
      (HttpOutcome.response 200 (Except.ok (Json.obj [("status", Json.str "ok")]))) =
      (initCoordinator, Except.ok (Json.obj [("status", Json.str "ok")])) :=
  command_no_state_leaves_cache initCoordinator [("status", Json.str "ok")] rfl

/-- C1 counterexample: after a successful poll followed by a command dispatch
that times out, the availability flag is still `true` although the most
recent communication attempt failed — `async_send_command` never writes
`_available`, so the flag is not "true iff the most recent communication
attempt (poll or command) succeeded". -/
theorem availability_not_iff_last_attempt :
    ¬ ∀ ops : List Op,
        (runOps initCoordinator ops).available = lastAttemptOk initCoordinator ops := by
  intro h
  have h1 := h cexC1Ops
  have h2 : (runOps initCoordinator cexC1Ops).available = true := rfl
  have h3 : lastAttemptOk initCoordinator cexC1Ops = false := rfl
  rw [h1, h3] at h2
  exact Bool.noConfusion h2

/-- C1 amended: after any sequence of poll and command operations, the
availability flag equals the outcome of the most recent poll cycle (both
fetches succeeding), and is untouched by command dispatches; before the
first poll it keeps its initial value (`true`). -/
theorem availability_tracks_last_poll (c : Coordinator) (ops : List Op) :
    (runOps c ops).available =
      (match lastPollOutcome ops with
       | none => c.available
       | some (so, io) => fetchOk so && fetchOk io) := by
  induction ops generalizing c with
  | nil => rfl
  | cons op rest ih =>
    cases op with
    | poll so io =>
      have h := ih (pollCycle c so io).1
      cases hl : lastPollOutcome rest with
      | none =>
        simp only [lastPollOutcome, hl, Option.getD, runOps, step] at h ⊢
        rw [h, pollCycle_available]
      | some p =>
        obtain ⟨so2, io2⟩ := p
        simp only [lastPollOutcome, hl, Option.getD, runOps, step] at h ⊢
        rw [h]
    | command out =>
      have h := ih (async_send_command c out).1
      cases hl : lastPollOutcome rest with
      | none =>
        simp only [lastPollOutcome, hl, runOps, step] at h ⊢
        rw [h, async_send_command_available]
      | some p =>
        obtain ⟨so2, io2⟩ := p
        simp only [lastPollOutcome, hl, runOps, step] at h ⊢
        rw [h]

/-- C3 counterexample: the code converts with `int()` truncation, not
`round()`, and the 0-255 round trip misses the one-unit tolerance: brightness
5 maps outward to 1 (where `round(5/255*100) = 2`) and back to 2, a deviation
of 3. -/
theorem brightness_roundtrip_counterexample :
    outgoing_brightness_percent 5 = 1 ∧
    displayed_brightness (outgoing_brightness_percent 5) = 2 ∧
    ¬ (5 - displayed_brightness (outgoing_brightness_percent 5) ≤ 1) := by
  decide

set_option maxRecDepth 4096 in
/-- C3 amended: with the code's truncating conversions
(`int(value/255*100)` outward, `int(value/100*255)` inward), the round trip
never exceeds the original value; starting from the 0-255 scale it deviates
by at most 3 units, and starting from the device's 0-100 scale by at most 1
unit. -/
theorem brightness_roundtrip_truncation_bounds (b p : Nat)
    (hb : b ≤ 255) (hp : p ≤ 100) :
    displayed_brightness (outgoing_brightness_percent b) ≤ b ∧
    b - displayed_brightness (outgoing_brightness_percent b) ≤ 3 ∧
    outgoing_brightness_percent (displayed_brightness p) ≤ p ∧
    p - outgoing_brightness_percent (displayed_brightness p) ≤ 1 := by
  have hB : ∀ x : Fin 256,
      displayed_brightness (outgoing_brightness_percent x.val) ≤ x.val ∧
      x.val - displayed_brightness (outgoing_brightness_percent x.val) ≤ 3 := by
    decide
  have hP : ∀ x : Fin 101,
      outgoing_brightness_percent (displayed_brightness x.val) ≤ x.val ∧
      x.val - outgoing_brightness_percent (displayed_brightness x.val) ≤ 1 := by
    decide
  obtain ⟨h1, h2⟩ := hB ⟨b, Nat.lt_succ_of_le hb⟩
  obtain ⟨h3, h4⟩ := hP ⟨p, Nat.lt_succ_of_le hp⟩
  exact ⟨h1, h2, h3, h4⟩

/-- Witness for `brightness_roundtrip_truncation_bounds` at 128 and 50. -/
theorem brightness_roundtrip_truncation_bounds_witness :
    displayed_brightness (outgoing_brightness_percent 128) ≤ 128 ∧
    128 - displayed_brightness (outgoing_brightness_percent 128) ≤ 3 ∧
    outgoing_brightness_percent (displayed_brightness 50) ≤ 50 ∧
    50 - outgoing_brightness_percent (displayed_brightness 50) ≤ 1 :=
  brightness_roundtrip_truncation_bounds 128 50 (by decide) (by decide)

/-- C7: whenever `async_turn_on` includes a brightness taken from a nonzero
0-255 input, the device-bound command carries a brightness of at least 1
(`max(1, ...)` floors it), so 0 is never sent while the power is on. -/
theorem turn_on_brightness_floored (b : Nat) (h0 : b ≠ 0) (hb : b ≤ 255)
    (rgb : Option (Json × Json × Json)) (eff : Option Json) :
    ∃ v : Int,
      (async_turn_on_command (some b) rgb eff).lookup "brightness" =
        some (Json.int v) ∧ 1 ≤ v := by
  refine ⟨max 1 (outgoing_brightness_percent b), rfl, ?_⟩
  exact_mod_cast Nat.le_max_left 1 (outgoing_brightness_percent b)

/-- Witness for `turn_on_brightness_floored`: brightness input 1 (which maps
to 0 before the floor). -/
theorem turn_on_brightness_floored_witness :
    ∃ v : Int,
      (async_turn_on_command (some 1) none none).lookup "brightness" =
        some (Json.int v) ∧ 1 ≤ v :=
  turn_on_brightness_floored 1 (by decide) (by decide) none none

/-- C8: when the cached effect value is the static sentinel the `effect`
property presents it as `None`, and any other cached value is passed through
unchanged. -/
theorem effect_hides_static_sentinel (d s e : Json)
    (h1 : pyGetItem d "state" = Except.ok s)
    (h2 : pyGetItem s "effect" = Except.ok e) :
    effect d = Except.ok (if pyEqStr e EFFECT_STATIC then Json.null else e) := by
  unfold effect effect_try
  simp [h1, h2, Except.bind, Except.map, Bind.bind, Functor.map, Pure.pure,
    Except.pure, pyCatch]

/-- Witness for `effect_hides_static_sentinel`: the sentinel presents as
`None`; the value `"rainbow"` passes through. -/
theorem effect_hides_static_sentinel_witness :
    effect (Json.obj [("state", Json.obj [("effect", Json.str "static")])]) =
      Except.ok Json.null ∧
    effect (Json.obj [("state", Json.obj [("effect", Json.str "rainbow")])]) =
      Except.ok (Json.str "rainbow") :=
  ⟨effect_hides_static_sentinel
     (Json.obj [("state", Json.obj [("effect", Json.str "static")])])
     (Json.obj [("effect", Json.str "static")]) (Json.str "static") rfl rfl,
   effect_hides_static_sentinel
     (Json.obj [("state", Json.obj [("effect", Json.str "rainbow")])])
     (Json.obj [("effect", Json.str "rainbow")]) (Json.str "rainbow") rfl rfl⟩

theorem appendProbe_starts (L : List String) (ip : String) (st : ScanState) :
    (appendProbe L ip st).starts = st.starts := by
  unfold appendProbe; split <;> rfl

theorem appendProbe_finalWait (L : List String) (ip : String) (st : ScanState) :
    (appendProbe L ip st).finalWait = st.finalWait := by
  unfold appendProbe; split <;> rfl

theorem appendProbe_elapsed (L : List String) (ip : String) (st : ScanState) :
    (appendProbe L ip st).elapsed = st.elapsed := by
  unfold appendProbe; split <;> rfl

theorem scanIps_starts_bound (L : List String) (ips : List String) (st : ScanState)
    (h : st.starts.all (fun t => decide (t ≤ DISCOVERY_TIMEOUT)) = true) :
    (scanIps L ips st).starts.all (fun t => decide (t ≤ DISCOVERY_TIMEOUT)) = true := by
  induction ips generalizing st with
  | nil => exact h
  | cons ip rest ih =>
    unfold scanIps
    by_cases h1 : MAX_PARALLEL_SCANS ≤ (appendProbe L ip st).tasks
    · simp only [if_pos h1]
      by_cases h2 : DISCOVERY_TIMEOUT < (appendProbe L ip st).elapsed
      · simp only [if_pos h2]
        rw [appendProbe_starts]
        exact h
      · simp only [if_neg h2]
        apply ih
        simp only [List.all_append, appendProbe_starts, List.all_cons, List.all_nil]
        refine (Bool.and_eq_true _ _).mpr ⟨h, ?_⟩
        simp [Nat.le_of_not_lt h2]
    · simp only [if_neg h1]
      apply ih
      rw [appendProbe_starts]
      exact h

theorem scanIps_finalWait (L : List String) (ips : List String) (st : ScanState) :
    (scanIps L ips st).finalWait = st.finalWait := by
  induction ips generalizing st with
  | nil => rfl
  | cons ip rest ih =>
    unfold scanIps
    by_cases h1 : MAX_PARALLEL_SCANS ≤ (appendProbe L ip st).tasks
    · simp only [if_pos h1]
      by_cases h2 : DISCOVERY_TIMEOUT < (appendProbe L ip st).elapsed
      · simp only [if_pos h2]
        rw [appendProbe_finalWait]
      · simp only [if_neg h2]
        rw [ih, appendProbe_finalWait]
    · simp only [if_neg h1]
      rw [ih, appendProbe_finalWait]

theorem scanNetworks_starts_bound (L : List String) (nets : List (List String))
    (st : ScanState)
    (h : st.starts.all (fun t => decide (t ≤ DISCOVERY_TIMEOUT)) = true) :
    (scanNetworks L nets st).starts.all (fun t => decide (t ≤ DISCOVERY_TIMEOUT)) = true := by
  induction nets generalizing st with
  | nil => exact h
  | cons net rest ih =>
    unfold scanNetworks
    by_cases h1 : DISCOVERY_TIMEOUT < st.elapsed
    · simp only [if_pos h1]; exact h
    · simp only [if_neg h1]
      exact ih _ (scanIps_starts_bound L net st h)

theorem scanNetworks_finalWait (L : List String) (nets : List (List String))
    (st : ScanState) : (scanNetworks L nets st).finalWait = st.finalWait := by
  induction nets generalizing st with
  | nil => rfl
  | cons net rest ih =>
    unfold scanNetworks
    by_cases h1 : DISCOVERY_TIMEOUT < st.elapsed
    · simp only [if_pos h1]
    · simp only [if_neg h1]
      rw [ih, scanIps_finalWait]

theorem finishScan_starts (st : ScanState) : (finishScan st).starts = st.starts := by
  unfold finishScan
  dsimp only
  split
  · split <;> rfl
  · rfl

/-- C2: during one discovery scan, every intermediate probe batch is awaited
only while the elapsed time is still within the 60-second discovery
deadline (no new batch once the deadline is exceeded), and the left-over
batch, when awaited at all, starts strictly before the deadline with exactly
the remaining time budget as its `wait_for` timeout. -/
theorem discovery_deadline_respected (L : List String) (nets : List (List String))
    (durs : List Nat) :
    ((discoverDevicesHttp L nets durs).starts.all
        (fun t => decide (t ≤ DISCOVERY_TIMEOUT)) = true) ∧
    ((discoverDevicesHttp L nets durs).finalWait.all
        (fun p => decide (p.1 < DISCOVERY_TIMEOUT ∧
          p.2 = DISCOVERY_TIMEOUT - p.1)) = true) := by
  unfold discoverDevicesHttp
  constructor
  · rw [finishScan_starts]
    exact scanNetworks_starts_bound L nets _ rfl
  · have hfw : (scanNetworks L nets
        { elapsed := 0, tasks := 0, durs := durs, starts := [],
          finalWait := none }).finalWait = none := by
      rw [scanNetworks_finalWait]
    unfold finishScan
    by_cases h1 : 0 < (scanNetworks L nets
        { elapsed := 0, tasks := 0, durs := durs, starts := [],
          finalWait := none }).tasks
    · simp only [if_pos h1]
      by_cases h2 : 0 < DISCOVERY_TIMEOUT - (scanNetworks L nets
          { elapsed := 0, tasks := 0, durs := durs, starts := [],
            finalWait := none }).elapsed
      · simp only [if_pos h2, Option.all]
        have hlt : (scanNetworks L nets
            { elapsed := 0, tasks := 0, durs := durs, starts := [],
              finalWait := none }).elapsed < DISCOVERY_TIMEOUT := by omega
        simp [hlt]
      · simp only [if_neg h2]
        rw [hfw]
        rfl
    · simp only [if_neg h1]
      rw [hfw]
      rfl

theorem errCaught_pyGetItem (j : Json) (k : String) : ErrCaught (pyGetItem j k) := by
  intro e h
  unfold pyGetItem at h
  split at h
  · split at h
    · exact absurd h (by simp)
    · simp at h
      exact Or.inl h.symm
  · simp at h
    exact Or.inr h.symm

theorem errCaught_pyToNumber (j : Json) : ErrCaught (pyToNumber j) := by
  intro e h
  unfold pyToNumber at h
  split at h <;> simp at h <;> exact Or.inr h.symm

theorem errCaught_bind {α β : Type} (x : Except PyErr α) (f : α → Except PyErr β)
    (hx : ErrCaught x) (hf : ∀ a, ErrCaught (f a)) : ErrCaught (x >>= f) := by
  intro e h
  cases x with
  | error e1 =>
    have : e1 = e := by simpa [Bind.bind, Except.bind] using h
    exact this ▸ hx e1 rfl
  | ok a =>
    have : f a = Except.error e := by simpa [Bind.bind, Except.bind] using h
    exact hf a e this

theorem errCaught_map {α β : Type} (f : α → β) (x : Except PyErr α)
    (hx : ErrCaught x) : ErrCaught (f <$> x) := by
  intro e h
  cases x with
  | error e1 =>
    have : e1 = e := by simpa [Functor.map, Except.map] using h
    exact this ▸ hx e1 rfl
  | ok a => simp [Functor.map, Except.map] at h

theorem errCaught_is_on_try (d : Json) : ErrCaught (is_on_try d) :=
  errCaught_bind _ _ (errCaught_pyGetItem d "state")
    (fun s => errCaught_pyGetItem s "is_on")

theorem errCaught_brightness_try (d : Json) (h : BrightnessInRange d) :
    ErrCaught (brightness_try d) := by
  intro e he
  unfold brightness_try at he
  cases hs : pyGetItem d "state" with
  | error e1 =>
    rw [hs] at he
    have he1 : e1 = e := by simpa [Bind.bind, Except.bind] using he
    exact he1 ▸ errCaught_pyGetItem d "state" e1 hs
  | ok s =>
    rw [hs] at he
    simp only [Bind.bind, Except.bind] at he
    cases hv : pyGetItem s "brightness" with
    | error e2 =>
      rw [hv] at he
      have he2 : e2 = e := by simpa [Except.bind] using he
      exact he2 ▸ errCaught_pyGetItem s "brightness" e2 hv
    | ok v =>
      rw [hv] at he
      simp only [Except.bind] at he
      cases hp : pyToNumber v with
      | error e3 =>
        rw [hp] at he
        have he3 : e3 = e := by simpa [Except.bind] using he
        exact he3 ▸ errCaught_pyToNumber v e3 hp
      | ok p =>
        rw [hp] at he
        have hb := h s v p hs hv hp
        have hcond : ¬ ((100 : Int).natAbs * 2 ^ 1024 ≤
            (255 : Int).natAbs * p.natAbs) := by
          have e100 : (100 : Int).natAbs = 100 := rfl
          have e255 : (255 : Int).natAbs = 255 := rfl
          rw [e100, e255]
          exact not_le.mpr hb
        have hok : pyScaleTrunc p 255 100 = Except.ok (Int.tdiv (p * 255) 100) := by
          unfold pyScaleTrunc
          rw [if_neg hcond]
        dsimp only at he
        rw [hok] at he
        exact Except.noConfusion he

theorem errCaught_rgb_color_try (d : Json) : ErrCaught (rgb_color_try d) :=
  errCaught_bind _ _ (errCaught_pyGetItem d "state")
    (fun s => errCaught_bind _ _ (errCaught_pyGetItem s "color")
      (fun color => errCaught_bind _ _ (errCaught_pyGetItem color "r")
        (fun r => errCaught_bind _ _ (errCaught_pyGetItem color "g")
          (fun g => errCaught_map _ _ (errCaught_pyGetItem color "b")))))

theorem errCaught_effect_try (d : Json) : ErrCaught (effect_try d) :=
  errCaught_bind _ _ (errCaught_pyGetItem d "state")
    (fun s => errCaught_map _ _ (errCaught_pyGetItem s "effect"))

theorem pyCatch_eq {α : Type} (kinds : List PyErr) (default : α)
    (r : Except PyErr α)
    (h : ∀ e, r = Except.error e → kinds.contains e = true) :
    pyCatch kinds default r = Except.ok (r.toOption.getD default) := by
  cases r with
  | ok v => rfl
  | error e =>
    show (if kinds.contains e = true then Except.ok default else Except.error e) =
      Except.ok ((Except.error e : Except PyErr α).toOption.getD default)
    rw [h e rfl]
    simp [Except.toOption]

/-- C10 counterexample: the state-reading properties do not "never raise an
exception": a cached brightness of `10 ^ 400` — a well-formed JSON integer
that `response.json()` can produce — makes the `brightness` property raise
`OverflowError` from the int-to-float pipeline of `int((value / 100) * 255)`,
and `except (KeyError, TypeError, ValueError)` (light.py:95) does not catch
it. -/
theorem brightness_overflow_counterexample :
    brightness (Json.obj [("state",
        Json.obj [("brightness", Json.int (Int.ofNat (10 ^ 400)))])]) =
      Except.error PyErr.overflowError := by
  have hpow : (2 : Nat) ^ 1024 ≤ 10 ^ 400 := by
    have h2 : (2 : Nat) ^ 1024 ≤ 2 ^ 1200 :=
      Nat.pow_le_pow_right (by decide) (by decide)
    have h3 : (2 : Nat) ^ 1200 = (2 ^ 3) ^ 400 := by rw [← pow_mul]
    have h4 : ((2 : Nat) ^ 3) ^ 400 ≤ 10 ^ 400 :=
      Nat.pow_le_pow_left (by decide) 400
    calc (2 : Nat) ^ 1024 ≤ 2 ^ 1200 := h2
      _ = (2 ^ 3) ^ 400 := h3
      _ ≤ 10 ^ 400 := h4
  have hcond : (100 : Int).natAbs * 2 ^ 1024 ≤
      (255 : Int).natAbs * (Int.ofNat (10 ^ 400)).natAbs := by
    have e100 : (100 : Int).natAbs = 100 := rfl
    have e255 : (255 : Int).natAbs = 255 := rfl
    have eAbs : (Int.ofNat (10 ^ 400)).natAbs = 10 ^ 400 := rfl
    rw [e100, e255, eAbs]
    calc (100 : Nat) * 2 ^ 1024 ≤ 255 * 2 ^ 1024 :=
          Nat.mul_le_mul_right _ (by decide)
      _ ≤ 255 * 10 ^ 400 := Nat.mul_le_mul_left _ hpow
  have hscale : pyScaleTrunc (Int.ofNat (10 ^ 400)) 255 100 =
      Except.error PyErr.overflowError := by
    unfold pyScaleTrunc
    rw [if_pos hcond]
  have h1 : pyGetItem (Json.obj [("state",
      Json.obj [("brightness", Json.int (Int.ofNat (10 ^ 400)))])]) "state" =
      Except.ok (Json.obj [("brightness", Json.int (Int.ofNat (10 ^ 400)))]) := rfl
  have h2 : pyGetItem (Json.obj [("brightness",
      Json.int (Int.ofNat (10 ^ 400)))]) "brightness" =
      Except.ok (Json.int (Int.ofNat (10 ^ 400))) := rfl
  have h3 : pyToNumber (Json.int (Int.ofNat (10 ^ 400))) =
      Except.ok (Int.ofNat (10 ^ 400)) := rfl
  unfold brightness brightness_try
  rw [h1]
  simp only [Bind.bind, Except.bind]
  rw [h2]
  simp only [Except.bind]
  rw [h3]
  simp only [Except.bind]
  rw [hscale]
  rfl

/-- C10 amended: whenever every cached brightness value reachable by the
lookup stays below the float-overflow cutoff (every value the device
protocol or any remotely plausible malformation produces), the light's
state-reading properties never let an exception escape: whenever the
underlying lookup raises, they return the fixed defaults (`is_on` =
`False`, `brightness` = 255, `rgb_color` = (255, 255, 255), `effect` =
`None`), and otherwise return the looked-up result.  A cached integer
brightness of astronomical magnitude instead escapes `brightness` as an
uncaught `OverflowError`. -/
theorem light_properties_total_below_overflow (d : Json)
    (h : BrightnessInRange d) :
    is_on d = Except.ok ((is_on_try d).toOption.getD (Json.bool false)) ∧
    brightness d = Except.ok ((brightness_try d).toOption.getD (Json.int 255)) ∧
    rgb_color d = Except.ok ((rgb_color_try d).toOption.getD
      (Json.int 255, Json.int 255, Json.int 255)) ∧
    effect d = Except.ok ((effect_try d).toOption.getD Json.null) := by
  have hc2 : ∀ e, e = PyErr.keyError ∨ e = PyErr.typeError →
      [PyErr.keyError, PyErr.typeError].contains e = true := by
    intro e he
    rcases he with he | he <;> subst he <;> rfl
  have hc3 : ∀ e, e = PyErr.keyError ∨ e = PyErr.typeError →
      [PyErr.keyError, PyErr.typeError, PyErr.valueError].contains e = true := by
    intro e he
    rcases he with he | he <;> subst he <;> rfl
  refine ⟨?_, ?_, ?_, ?_⟩
  · exact pyCatch_eq _ _ _ (fun e he => hc2 e (errCaught_is_on_try d e he))
  · exact pyCatch_eq _ _ _ (fun e he => hc3 e (errCaught_brightness_try d h e he))
  · exact pyCatch_eq _ _ _ (fun e he => hc2 e (errCaught_rgb_color_try d e he))
  · exact pyCatch_eq _ _ _ (fun e he => hc2 e (errCaught_effect_try d e he))

/-- Witness for `light_properties_total_below_overflow`: the `None` cache a
coordinator holds before its first success (its lookups all raise, so every
getter returns its default), discharging the range hypothesis vacuously. -/
theorem light_properties_total_below_overflow_witness :
    is_on Json.null = Except.ok (Json.bool false) ∧
    brightness Json.null = Except.ok (Json.int 255) ∧
    rgb_color Json.null = Except.ok (Json.int 255, Json.int 255, Json.int 255) ∧
    effect Json.null = Except.ok Json.null :=
  light_properties_total_below_overflow Json.null
    (by intro s v p hs hv hp; simp [pyGetItem] at hs)

end PicoW
